import Mathlib

/-!
Shallow embedding of `src/nasl_plugins.c` (OpenVAS NASL plugin loader and
launcher).  External collaborators (the NASL interpreter, the nvti cache
store, the preference store, the filesystem clock, the privilege-drop
facility) are modelled as an explicit environment record supplying their
observed results; each C function becomes a pure Lean function from that
environment to a trace of the side effects the C code performs.
-/

namespace NaslPlugins

/-- Character class used by glib's `g_strchomp` (ASCII whitespace). -/
def isAsciiSpace (c : Char) : Bool :=
  c = ' ' || c = '\t' || c = '\n' || c = '\x0b' || c = '\x0c' || c = '\r'

/-- Embedding of glib's `g_strchomp`: remove trailing ASCII whitespace. -/
def strchomp (s : String) : String :=
  ⟨(s.data.reverse.dropWhile isAsciiSpace).reverse⟩

/-- One declared plugin preference: `(name, type, default)`, as read through
`nvtpref_name`, `nvtpref_type`, `nvtpref_default`. -/
structure NvtPref where
  pname : String
  ptype : String
  pdefault : String
deriving DecidableEq, Repr

/-- A plugin descriptor (`nvti_t`): nullable OID, display name, and the
ordered list of declared preferences. -/
structure Nvti where
  oid : Option String
  name : String
  prefs : List NvtPref
deriving DecidableEq, Repr

/-- Embedding of `nvti_pref_len`. -/
def nvti_pref_len (n : Nvti) : Nat := n.prefs.length

/-- Embedding of `nvti_pref` (indexed access into the preference list). -/
def nvti_pref (n : Nvti) (i : Nat) : Option NvtPref := n.prefs.get? i

/-- Loop body of `prefs_add_nvti` from index `i`: for each preference build
the composite key `"<name>[<type>]:<chomped pref name>"` and record the
`prefs_set` call, in declaration order. -/
def prefs_add_nvti_loop (n : Nvti) (i : Nat) : List (String × String) :=
  if i < nvti_pref_len n then
    match nvti_pref n i with
    | some np =>
        let cname := strchomp np.pname
        let pref := n.name ++ "[" ++ np.ptype ++ "]:" ++ cname
        (pref, np.pdefault) :: prefs_add_nvti_loop n (i + 1)
    | none => prefs_add_nvti_loop n (i + 1)
  else []
termination_by nvti_pref_len n - i

/-- Embedding of `prefs_add_nvti`: the ordered list of `prefs_set (key, value)`
calls the C function issues for a (non-null) descriptor. -/
def prefs_add_nvti (n : Nvti) : List (String × String) :=
  prefs_add_nvti_loop n 0

/-- The global preference store, modelled as a partial map; `prefs_set`
overwrites the binding for the key. -/
def prefs_set (cfg : String → Option String) (k v : String) :
    String → Option String :=
  fun x => if x = k then some v else cfg x

/-- Apply a list of recorded `prefs_set` calls to a configuration, in order. -/
def apply_pref_writes (cfg : String → Option String)
    (ws : List (String × String)) : String → Option String :=
  ws.foldl (fun c kv => prefs_set c kv.1 kv.2) cfg

/-- The last value written for key `k` in a write list, if any: later writes
take precedence over earlier ones. -/
def lastWrite (ws : List (String × String)) (k : String) : Option String :=
  match ws with
  | [] => none
  | kv :: rest =>
      match lastWrite rest k with
      | some v => some v
      | none => if kv.1 = k then some kv.2 else none

/-- NASL interpreter mode flag: describe (metadata-only) run. -/
def NASL_EXEC_DESCR : Nat := 2

/-- NASL interpreter mode flag: treat the script as signed. -/
def NASL_ALWAYS_SIGNED : Nat := 32

/-- Privilege-drop result: success. -/
def GVM_DROP_PRIVILEGES_OK : Int := 0

/-- Privilege-drop result: the process was not privileged to begin with. -/
def GVM_DROP_PRIVILEGES_FAIL_NOT_ROOT : Int := 1

/-- Control-channel message type flag for control messages. -/
def INTERNAL_COMM_MSG_TYPE_CTRL : Nat := 16

/-- Control-channel flag: this plugin instance has finished. -/
def INTERNAL_COMM_CTRL_FINISHED : Nat := 1

/-- Environment of one `nasl_plugin_add` call: what the external cache,
interpreter, clock and filesystem would answer during this call.
`cachedNvti` is the result of the initial `nvticache_get name`;
`refetched` is the result of the `nvticache_get name` issued right after
`nvticache_add` (the cache store may hand back a distinct canonical copy). -/
structure LoadEnv where
  cachedNvti : Option Nvti
  noSigCheck : Bool
  execResult : Int
  parsedNvti : Nvti
  fileMtime : Int
  nowTime : Int
  utimeOk : Bool
  refetched : Option Nvti
deriving Repr

/-- Side effects and result of one `nasl_plugin_add` call:
`ret` is the C return value; `interpCalls` records each `exec_nasl_script`
invocation as `(fullname, nasl_mode)`; `cacheAdds` records each
`nvticache_add (nvti, name)`; `utimeCalls` records each `utime` attempt as
`(actime, modtime, succeeded)`; `prefWrites` records each `prefs_set`. -/
structure LoadTrace where
  ret : Int
  interpCalls : List (String × Nat)
  cacheAdds : List (Nvti × String)
  utimeCalls : List (Int × Int × Bool)
  prefWrites : List (String × String)
deriving Repr

/-- Convergence tail of `nasl_plugin_add` (lines 171-188 of the source):
reject a null descriptor, reject a null OID, otherwise merge preferences
and return 0. -/
def loadTail (interp : List (String × Nat)) (adds : List (Nvti × String))
    (utimes : List (Int × Int × Bool)) (nvti : Option Nvti) : LoadTrace :=
  match nvti with
  | none => ⟨-1, interp, adds, utimes, []⟩
  | some n =>
      match n.oid with
      | none => ⟨-1, interp, adds, utimes, []⟩
      | some _ => ⟨0, interp, adds, utimes, prefs_add_nvti n⟩

/-- Embedding of `nasl_plugin_add folder name`: cache fetch, on miss a
metadata-only interpreter run, future-mtime correction, conditional cache
commit plus re-fetch, then the convergence tail. -/
def nasl_plugin_add (folder name : String) (env : LoadEnv) : LoadTrace :=
  let fullname := folder ++ "/" ++ name
  let nasl_mode :=
    if env.noSigCheck then NASL_EXEC_DESCR ||| NASL_ALWAYS_SIGNED
    else NASL_EXEC_DESCR
  match env.cachedNvti with
  | some nvti => loadTail [] [] [] (some nvti)
  | none =>
      let interp := [(fullname, nasl_mode)]
      if env.execResult < 0 then ⟨-1, interp, [], [], []⟩
      else
        let now := env.nowTime - 1
        let utimes :=
          if env.fileMtime > now then [(now, now, env.utimeOk)] else []
        match env.parsedNvti.oid with
        | some _ =>
            loadTail interp [(env.parsedNvti, name)] utimes env.refetched
        | none => loadTail interp [] utimes none

/-- The plugin source file's modification time after the call: rewritten to
`nowTime - 1` exactly when the miss path reached the mtime check, found it
beyond `nowTime - 1`, and the `utime` call succeeded. -/
def mtimeAfterLoad (env : LoadEnv) : Int :=
  match env.cachedNvti with
  | some _ => env.fileMtime
  | none =>
      if env.execResult < 0 then env.fileMtime
      else if env.fileMtime > env.nowTime - 1 && env.utimeOk then
        env.nowTime - 1
      else env.fileMtime

/-- One observable step of the worker body `nasl_thread`, in the order the
C code performs them.  `execScript` carries the computed `nasl_mode` and the
interpreter's returned status; `internalSend` carries the socket, the
payload (the C code passes `NULL`) and the message word. -/
inductive WorkerEvent where
  | cacheReset : WorkerEvent
  | niceCall : Int → WorkerEvent
  | logReniceFail : Int → WorkerEvent
  | childCleanup : WorkerEvent
  | kbLnkReset : WorkerEvent
  | setGlobalSocket : Int → WorkerEvent
  | proctitleSet : String → String → WorkerEvent
  | logDropPrivFail : String → WorkerEvent
  | errorFree : WorkerEvent
  | execScript : Nat → Int → WorkerEvent
  | internalSend : Int → Option String → Nat → WorkerEvent
deriving DecidableEq, Repr

/-- Environment of one `nasl_thread` run: configuration booleans and the
results the external facilities (nice, drop_privileges, the interpreter)
return inside this worker. -/
structure ThreadEnv where
  beNice : Bool
  niceRetval : Int
  niceErrno : Int
  noSigCheck : Bool
  dropPrivileges : Bool
  dropPrivResult : Int
  execResult : Int
deriving Repr

/-- Embedding of the worker body `nasl_thread`: the ordered list of
observable steps it performs for host `hostname`, plugin `name`, on control
socket `soc`, under environment `env`. -/
def nasl_thread (hostname name : String) (soc : Int) (env : ThreadEnv) :
    List WorkerEvent :=
  [WorkerEvent.cacheReset]
  ++ (if env.beNice then
        WorkerEvent.niceCall (-5) ::
          (if env.niceRetval = -1 && env.niceErrno ≠ 0 then
            [WorkerEvent.logReniceFail env.niceErrno]
          else [])
      else [])
  ++ [WorkerEvent.childCleanup, WorkerEvent.kbLnkReset,
      WorkerEvent.setGlobalSocket soc,
      WorkerEvent.proctitleSet hostname name]
  ++ (if env.dropPrivileges then
        (if env.dropPrivResult ≠ GVM_DROP_PRIVILEGES_OK then
          (if env.dropPrivResult ≠ GVM_DROP_PRIVILEGES_FAIL_NOT_ROOT then
            [WorkerEvent.logDropPrivFail name]
          else [])
          ++ [WorkerEvent.errorFree]
        else [])
      else [])
  ++ [WorkerEvent.execScript
        (if env.noSigCheck then 0 ||| NASL_ALWAYS_SIGNED else 0)
        env.execResult,
      WorkerEvent.internalSend soc none
        (INTERNAL_COMM_MSG_TYPE_CTRL ||| INTERNAL_COMM_CTRL_FINISHED)]

/-- Recogniser for any `internal_send` event. -/
def isSend (e : WorkerEvent) : Bool :=
  match e with
  | WorkerEvent.internalSend _ _ _ => true
  | _ => false

/-- Recogniser for an `exec_nasl_script` event. -/
def isExec (e : WorkerEvent) : Bool :=
  match e with
  | WorkerEvent.execScript _ _ => true
  | _ => false

/-- Recogniser for the privilege-drop failure log event. -/
def isDropPrivFailLog (e : WorkerEvent) : Bool :=
  match e with
  | WorkerEvent.logDropPrivFail _ => true
  | _ => false

/-- Recogniser for the renice failure log event. -/
def isReniceFailLog (e : WorkerEvent) : Bool :=
  match e with
  | WorkerEvent.logReniceFail _ => true
  | _ => false

/-- Recogniser for the `nice` call event. -/
def isNiceCall (e : WorkerEvent) : Bool :=
  match e with
  | WorkerEvent.niceCall _ => true
  | _ => false

/-! ### Helper lemmas -/

/-- Loop characterisation: the loop from index `i` emits exactly the entries
for the preferences from position `i` on, in order. -/
theorem prefs_add_nvti_loop_eq (n : Nvti) (i : Nat) :
    prefs_add_nvti_loop n i
      = (n.prefs.drop i).map
          (fun np =>
            (n.name ++ "[" ++ np.ptype ++ "]:" ++ strchomp np.pname,
             np.pdefault)) := by
  have H : ∀ k i, nvti_pref_len n - i ≤ k →
      prefs_add_nvti_loop n i
        = (n.prefs.drop i).map
            (fun np =>
              (n.name ++ "[" ++ np.ptype ++ "]:" ++ strchomp np.pname,
               np.pdefault)) := by
    intro k
    induction k with
    | zero =>
        intro i hi
        have hlen : n.prefs.length ≤ i := by
          simpa [nvti_pref_len] using Nat.le_of_sub_eq_zero (Nat.le_zero.mp hi)
        rw [prefs_add_nvti_loop]
        simp [nvti_pref_len, Nat.not_lt.mpr hlen, List.drop_eq_nil_of_le hlen]
    | succ k ih =>
        intro i hi
        rw [prefs_add_nvti_loop]
        by_cases h : i < nvti_pref_len n
        · have h2 : i < n.prefs.length := h
          have hget : nvti_pref n i = some n.prefs[i] := by
            simp [nvti_pref, List.get?_eq_getElem?, List.getElem?_eq_getElem h2]
          have hdrop : n.prefs.drop i = n.prefs[i] :: n.prefs.drop (i + 1) :=
            List.drop_eq_getElem_cons h2
          rw [if_pos h, hget, ih (i + 1) (by omega), hdrop, List.map_cons]
        · have hlen : n.prefs.length ≤ i := Nat.not_lt.mp h
          simp [h, List.drop_eq_nil_of_le hlen]
  exact H (nvti_pref_len n) i (by omega)

/-- The preference store after a sequence of writes answers each key with the
last value written for it, and is untouched on keys never written. -/
theorem apply_pref_writes_eq (ws : List (String × String)) :
    ∀ (cfg : String → Option String) (k : String),
      apply_pref_writes cfg ws k = (lastWrite ws k).elim (cfg k) some := by
  induction ws with
  | nil => intro cfg k; rfl
  | cons kv rest ih =>
      intro cfg k
      have h1 : apply_pref_writes cfg (kv :: rest) k
          = apply_pref_writes (prefs_set cfg kv.1 kv.2) rest k := rfl
      rw [h1, ih]
      cases hlw : lastWrite rest k with
      | some v => simp [lastWrite, hlw]
      | none =>
          by_cases hk : kv.1 = k
          · simp [lastWrite, hlw, hk, prefs_set]
          · have hk2 : ¬ k = kv.1 := fun h2 => hk h2.symm
            simp [lastWrite, hlw, hk, hk2, prefs_set]

/-- Projection helper: the return value, cache commits and preference writes
of the convergence tail do not depend on the recorded utime attempts. -/
theorem loadTail_utimes_irrelevant (interp : List (String × Nat))
    (adds : List (Nvti × String)) (utimes utimes' : List (Int × Int × Bool))
    (nvti : Option Nvti) :
    (loadTail interp adds utimes nvti).ret
        = (loadTail interp adds utimes' nvti).ret
    ∧ (loadTail interp adds utimes nvti).cacheAdds
        = (loadTail interp adds utimes' nvti).cacheAdds
    ∧ (loadTail interp adds utimes nvti).prefWrites
        = (loadTail interp adds utimes' nvti).prefWrites := by
  cases nvti with
  | none => simp [loadTail]
  | some n => cases ho : n.oid <;> simp [loadTail, ho]

/-! ### Claim theorems -/

/-- Claim C4: merging a descriptor's preferences writes exactly the keys
"name[type]:chomped-pref-name" with the preference's default value, one per
declared preference in declaration order; applying the writes to the global
configuration makes the last write win on key collisions and leaves every
other key untouched. -/
theorem prefs_merge_exact_keys (n : Nvti) :
    prefs_add_nvti n
      = n.prefs.map
          (fun np =>
            (n.name ++ "[" ++ np.ptype ++ "]:" ++ strchomp np.pname,
             np.pdefault))
    ∧ ∀ (cfg : String → Option String) (ws : List (String × String))
        (k : String),
        apply_pref_writes cfg ws k = (lastWrite ws k).elim (cfg k) some := by
  constructor
  · rw [prefs_add_nvti, prefs_add_nvti_loop_eq]
    simp
  · intro cfg ws k
    exact apply_pref_writes_eq ws cfg k

/-- Claim C1: every run of the worker body performs exactly one send on the
control channel, and that send is a control message carrying the FINISHED
flag with no payload, whatever the interpreter invocation returned; the
interpreter is invoked exactly once. -/
theorem worker_single_completion_marker (hostname name : String) (soc : Int)
    (env : ThreadEnv) :
    (nasl_thread hostname name soc env).filter isSend
      = [WorkerEvent.internalSend soc none
          (INTERNAL_COMM_MSG_TYPE_CTRL ||| INTERNAL_COMM_CTRL_FINISHED)]
    ∧ (nasl_thread hostname name soc env).countP isExec = 1 := by
  unfold nasl_thread
  constructor <;> (split_ifs <;> simp [isSend, isExec])

/-- Claim C2: a descriptor with a null OID — whether it was the freshly
parsed one or came back from the cache fetch — is never committed to the
cache, never merged into the preferences, and makes the load return -1. -/
theorem null_oid_descriptor_rejected (folder name : String) (env : LoadEnv)
    (h : (∃ n, env.cachedNvti = some n ∧ n.oid = none)
       ∨ (env.cachedNvti = none ∧ env.parsedNvti.oid = none)) :
    (nasl_plugin_add folder name env).ret = -1
    ∧ (nasl_plugin_add folder name env).cacheAdds = []
    ∧ (nasl_plugin_add folder name env).prefWrites = [] := by
  rcases h with ⟨n, hc, ho⟩ | ⟨hc, ho⟩
  · simp [nasl_plugin_add, hc, loadTail, ho]
  · by_cases hex : env.execResult < 0
    · simp [nasl_plugin_add, hc, hex]
    · simp [nasl_plugin_add, hc, hex, ho, loadTail]

/-- Claim C6: on a cache miss, if the interpreter's metadata-only run fails,
the load returns -1 and performs no cache commit, no timestamp rewrite and
no preference write; the file's modification time is untouched. -/
theorem parse_failure_is_effect_free (folder name : String) (env : LoadEnv)
    (hmiss : env.cachedNvti = none) (hfail : env.execResult < 0) :
    (nasl_plugin_add folder name env).ret = -1
    ∧ (nasl_plugin_add folder name env).cacheAdds = []
    ∧ (nasl_plugin_add folder name env).utimeCalls = []
    ∧ (nasl_plugin_add folder name env).prefWrites = []
    ∧ mtimeAfterLoad env = env.fileMtime := by
  simp [nasl_plugin_add, hmiss, hfail, mtimeAfterLoad]

/-- Claim C10: on a cache hit, the load performs no interpreter run, no
cache commit and no timestamp rewrite; the file's modification time is
untouched. -/
theorem cache_hit_performs_no_writes (folder name : String) (env : LoadEnv)
    (n : Nvti) (hhit : env.cachedNvti = some n) :
    (nasl_plugin_add folder name env).interpCalls = []
    ∧ (nasl_plugin_add folder name env).cacheAdds = []
    ∧ (nasl_plugin_add folder name env).utimeCalls = []
    ∧ mtimeAfterLoad env = env.fileMtime := by
  cases ho : n.oid <;>
    simp [nasl_plugin_add, hhit, loadTail, ho, mtimeAfterLoad]

/-- Claim C5: on a cache miss with a successful parse, a file modification
time later than the load time is rewritten (access and modification) to one
second before the load time, so a successful rewrite leaves the modification
time no later than the load time; the rewrite's success or failure changes
neither the return value, nor the cache commits, nor the preference
writes. -/
theorem future_mtime_is_corrected (folder name : String) (env : LoadEnv)
    (hmiss : env.cachedNvti = none) (hexec : 0 ≤ env.execResult)
    (hfut : env.nowTime < env.fileMtime) :
    (nasl_plugin_add folder name env).utimeCalls
        = [(env.nowTime - 1, env.nowTime - 1, env.utimeOk)]
    ∧ (env.utimeOk = true → mtimeAfterLoad env ≤ env.nowTime)
    ∧ ∀ b : Bool,
        (nasl_plugin_add folder name
            (LoadEnv.mk env.cachedNvti env.noSigCheck env.execResult
              env.parsedNvti env.fileMtime env.nowTime b env.refetched)).ret
          = (nasl_plugin_add folder name env).ret
        ∧ (nasl_plugin_add folder name
            (LoadEnv.mk env.cachedNvti env.noSigCheck env.execResult
              env.parsedNvti env.fileMtime env.nowTime b env.refetched)).cacheAdds
          = (nasl_plugin_add folder name env).cacheAdds
        ∧ (nasl_plugin_add folder name
            (LoadEnv.mk env.cachedNvti env.noSigCheck env.execResult
              env.parsedNvti env.fileMtime env.nowTime b env.refetched)).prefWrites
          = (nasl_plugin_add folder name env).prefWrites := by
  have hex : ¬ env.execResult < 0 := not_lt.mpr hexec
  have hgt : env.nowTime - 1 < env.fileMtime := by omega
  refine ⟨?_, ?_, ?_⟩
  · cases ho : env.parsedNvti.oid with
    | none => simp [nasl_plugin_add, hmiss, hex, hgt, ho, loadTail]
    | some o =>
        cases hr : env.refetched with
        | none => simp [nasl_plugin_add, hmiss, hex, hgt, ho, hr, loadTail]
        | some m =>
            cases hmo : m.oid <;>
              simp [nasl_plugin_add, hmiss, hex, hgt, ho, hr, hmo, loadTail]
  · intro hok
    have hcond : (decide (env.fileMtime > env.nowTime - 1) && env.utimeOk) = true := by
      rw [hok, Bool.and_true, decide_eq_true_eq]
      omega
    simp only [mtimeAfterLoad, hmiss, hex, if_false, hcond, if_true]
    omega
  · intro b
    cases ho : env.parsedNvti.oid with
    | none => simp [nasl_plugin_add, hmiss, hex, ho, loadTail]
    | some o =>
        simp only [nasl_plugin_add, hmiss, hex, ho, if_neg hex]
        exact loadTail_utimes_irrelevant _ _ _ _ _

/-- Claim C9: on a cache miss with a successful parse and a non-null parsed
OID, the fresh descriptor is committed to the cache under the plugin's
filename, and the preferences merged downstream are those of the copy
re-fetched from the cache — if the re-fetch returns nothing, the load fails
and merges nothing, even though the parse succeeded. -/
theorem commit_then_refetch_used (folder name : String) (env : LoadEnv)
    (hmiss : env.cachedNvti = none) (hexec : 0 ≤ env.execResult)
    (hoid : env.parsedNvti.oid.isSome = true) :
    (nasl_plugin_add folder name env).cacheAdds = [(env.parsedNvti, name)]
    ∧ (∀ m, env.refetched = some m → m.oid.isSome = true →
        (nasl_plugin_add folder name env).prefWrites = prefs_add_nvti m)
    ∧ (env.refetched = none →
        (nasl_plugin_add folder name env).ret = -1
        ∧ (nasl_plugin_add folder name env).prefWrites = []) := by
  have hex : ¬ env.execResult < 0 := not_lt.mpr hexec
  obtain ⟨o, ho⟩ := Option.isSome_iff_exists.mp hoid
  refine ⟨?_, ?_, ?_⟩
  · cases hr : env.refetched with
    | none => simp [nasl_plugin_add, hmiss, hex, ho, hr, loadTail]
    | some m =>
        cases hmo : m.oid <;>
          simp [nasl_plugin_add, hmiss, hex, ho, hr, hmo, loadTail]
  · intro m hr hmo
    obtain ⟨o2, ho2⟩ := Option.isSome_iff_exists.mp hmo
    simp [nasl_plugin_add, hmiss, hex, ho, hr, ho2, loadTail]
  · intro hr
    simp [nasl_plugin_add, hmiss, hex, ho, hr, loadTail]

/-- Claim C3: when the cache serves for the second load the descriptor that
the first (cache-missing, successful) load re-fetched after committing, the
second load runs no interpreter, returns success, and writes exactly the
same key/value pairs into the global configuration as the first load. -/
theorem second_load_same_prefs (folder name : String) (env1 env2 : LoadEnv)
    (h1 : env1.cachedNvti = none)
    (h2 : (nasl_plugin_add folder name env1).ret = 0)
    (h3 : env2.cachedNvti = env1.refetched) :
    (nasl_plugin_add folder name env2).interpCalls = []
    ∧ (nasl_plugin_add folder name env2).ret = 0
    ∧ (nasl_plugin_add folder name env2).prefWrites
        = (nasl_plugin_add folder name env1).prefWrites := by
  by_cases hex : env1.execResult < 0
  · simp [nasl_plugin_add, h1, hex] at h2
  cases ho : env1.parsedNvti.oid with
  | none => simp [nasl_plugin_add, h1, hex, ho, loadTail] at h2
  | some o =>
      cases hr : env1.refetched with
      | none => simp [nasl_plugin_add, h1, hex, ho, hr, loadTail] at h2
      | some m =>
          cases hmo : m.oid with
          | none => simp [nasl_plugin_add, h1, hex, ho, hr, hmo, loadTail] at h2
          | some o2 =>
              rw [hr] at h3
              simp [nasl_plugin_add, h1, h3, hex, ho, hr, hmo, loadTail]

/-- Claim C7: with privilege reduction requested, a drop result of
"not currently privileged" produces no failure log, any other non-OK drop
result produces exactly one failure log, and in every case the interpreter
still runs once and the single completion marker is still sent. -/
theorem drop_priv_failure_nonfatal (hostname name : String) (soc : Int)
    (env : ThreadEnv) (hdrop : env.dropPrivileges = true) :
    (env.dropPrivResult = GVM_DROP_PRIVILEGES_FAIL_NOT_ROOT →
      (nasl_thread hostname name soc env).countP isDropPrivFailLog = 0)
    ∧ (env.dropPrivResult ≠ GVM_DROP_PRIVILEGES_OK →
        env.dropPrivResult ≠ GVM_DROP_PRIVILEGES_FAIL_NOT_ROOT →
        (nasl_thread hostname name soc env).countP isDropPrivFailLog = 1)
    ∧ (nasl_thread hostname name soc env).countP isExec = 1
    ∧ (nasl_thread hostname name soc env).filter isSend
        = [WorkerEvent.internalSend soc none
            (INTERNAL_COMM_MSG_TYPE_CTRL ||| INTERNAL_COMM_CTRL_FINISHED)] := by
  refine ⟨?_, ?_, ?_, ?_⟩
  · intro hnr
    unfold nasl_thread
    rw [hdrop, hnr]
    split_ifs <;>
      simp_all [isDropPrivFailLog, GVM_DROP_PRIVILEGES_OK,
        GVM_DROP_PRIVILEGES_FAIL_NOT_ROOT]
  · intro hok hnr
    unfold nasl_thread
    rw [hdrop]
    split_ifs <;> simp_all [isDropPrivFailLog]
  · unfold nasl_thread
    split_ifs <;> simp [isExec]
  · unfold nasl_thread
    split_ifs <;> simp [isSend]

/-- The nice increments the worker requested, in order. -/
def niceIncrementsOf (tr : List WorkerEvent) : List Int :=
  tr.filterMap (fun e =>
    match e with
    | WorkerEvent.niceCall i => some i
    | _ => none)

/-- Modelled from the spec and POSIX (the alternative behaviour of `nice`,
which is outside this repository): `nice (inc)` adds `inc` to the caller's
nice value, and a higher nice value means a lower scheduling priority, so a
call lowers the caller's own priority exactly when its increment is
positive. -/
def lowersPriority (inc : Int) : Prop := 0 < inc

instance : DecidablePred lowersPriority :=
  fun inc => inferInstanceAs (Decidable (0 < inc))

/-- Concrete worker environment with reduced priority requested. -/
def envBeNice : ThreadEnv := ⟨true, 0, 0, false, false, 0, 0⟩

/-- Claim C8 counterexample: with reduced priority requested, the only nice
increment the worker requests is -5, and an increment of -5 does not lower
the caller's scheduling priority (it raises it). -/
theorem be_nice_increment_not_lowering :
    niceIncrementsOf (nasl_thread "host" "plug" 3 envBeNice) = [-5]
    ∧ ¬ lowersPriority (-5) := by
  constructor
  · rfl
  · decide

/-- Claim C8 as amended: with reduced priority requested, the worker calls
nice exactly once, with increment -5 (raising, not lowering, its priority);
a nice failure (return -1 with errno set) is logged exactly once and the
worker still runs the interpreter and sends its single completion marker. -/
theorem be_nice_renices_nonfatal (hostname name : String) (soc : Int)
    (env : ThreadEnv) (hnice : env.beNice = true) :
    niceIncrementsOf (nasl_thread hostname name soc env) = [-5]
    ∧ (env.niceRetval = -1 → env.niceErrno ≠ 0 →
        (nasl_thread hostname name soc env).countP isReniceFailLog = 1)
    ∧ (nasl_thread hostname name soc env).countP isExec = 1
    ∧ (nasl_thread hostname name soc env).filter isSend
        = [WorkerEvent.internalSend soc none
            (INTERNAL_COMM_MSG_TYPE_CTRL ||| INTERNAL_COMM_CTRL_FINISHED)] := by
  refine ⟨?_, ?_, ?_, ?_⟩
  · unfold nasl_thread niceIncrementsOf
    rw [hnice]
    split_ifs <;> simp_all
  · intro hr he
    unfold nasl_thread
    rw [hnice]
    split_ifs <;> simp_all [isReniceFailLog]
  · unfold nasl_thread
    split_ifs <;> simp [isExec]
  · unfold nasl_thread
    split_ifs <;> simp [isSend]

/-! ### Concrete environments for witness instantiations -/

/-- A preference with trailing whitespace in its name. -/
def prefA : NvtPref := ⟨"timeout ", "entry", "5"⟩

/-- A second, distinct preference. -/
def prefB : NvtPref := ⟨"verbose", "checkbox", "no"⟩

/-- A freshly parsed descriptor with a non-null OID. -/
def nvtiParsed : Nvti := ⟨some "1.3.6.1.4.1.25623.1.0.10330", "services", [prefA]⟩

/-- The cache's canonical copy, deliberately distinct from the parsed one. -/
def nvtiCached : Nvti := ⟨some "1.3.6.1.4.1.25623.1.0.10330", "services", [prefB]⟩

/-- A descriptor whose OID is null. -/
def nvtiNullOid : Nvti := ⟨none, "broken", []⟩

/-- Cache-miss load environment: successful parse, future mtime. -/
def envMiss : LoadEnv := ⟨none, false, 0, nvtiParsed, 100, 50, true, some nvtiCached⟩

/-- Cache-hit load environment serving the canonical cached copy. -/
def envHit : LoadEnv := ⟨some nvtiCached, false, 0, nvtiParsed, 100, 50, true, some nvtiCached⟩

/-- Cache-hit load environment whose fetched descriptor has a null OID. -/
def envNullCached : LoadEnv := ⟨some nvtiNullOid, false, 0, nvtiParsed, 100, 50, true, none⟩

/-- Cache-miss load environment whose interpreter run fails. -/
def envExecFail : LoadEnv := ⟨none, false, -1, nvtiParsed, 100, 50, true, some nvtiCached⟩

/-- Worker environment requesting privilege reduction, with a drop failure
that is neither OK nor "not privileged". -/
def envDropPriv : ThreadEnv := ⟨false, 0, 0, false, true, 4, 0⟩

/-- Worker environment requesting reduced priority, with a failing nice call
and a failing interpreter run. -/
def envBeNiceFail : ThreadEnv := ⟨true, -1, 1, false, false, 0, -1⟩

/-! ### Witness instantiations -/

/-- Witness for claim C2 at a concrete null-OID cached descriptor. -/
theorem null_oid_descriptor_rejected_w :
    (nasl_plugin_add "plugins" "a.nasl" envNullCached).ret = -1
    ∧ (nasl_plugin_add "plugins" "a.nasl" envNullCached).cacheAdds = []
    ∧ (nasl_plugin_add "plugins" "a.nasl" envNullCached).prefWrites = [] :=
  null_oid_descriptor_rejected "plugins" "a.nasl" envNullCached
    (Or.inl ⟨nvtiNullOid, rfl, rfl⟩)

/-- Witness for claim C6 at a concrete failing-parse environment. -/
theorem parse_failure_is_effect_free_w :
    (nasl_plugin_add "plugins" "a.nasl" envExecFail).ret = -1
    ∧ (nasl_plugin_add "plugins" "a.nasl" envExecFail).cacheAdds = []
    ∧ (nasl_plugin_add "plugins" "a.nasl" envExecFail).utimeCalls = []
    ∧ (nasl_plugin_add "plugins" "a.nasl" envExecFail).prefWrites = []
    ∧ mtimeAfterLoad envExecFail = envExecFail.fileMtime :=
  parse_failure_is_effect_free "plugins" "a.nasl" envExecFail rfl (by decide)

/-- Witness for claim C10 at a concrete cache-hit environment. -/
theorem cache_hit_performs_no_writes_w :
    (nasl_plugin_add "plugins" "a.nasl" envHit).interpCalls = []
    ∧ (nasl_plugin_add "plugins" "a.nasl" envHit).cacheAdds = []
    ∧ (nasl_plugin_add "plugins" "a.nasl" envHit).utimeCalls = []
    ∧ mtimeAfterLoad envHit = envHit.fileMtime :=
  cache_hit_performs_no_writes "plugins" "a.nasl" envHit nvtiCached rfl

/-- Witness for claim C5 at a concrete future-mtime environment. -/
theorem future_mtime_is_corrected_w :
    (nasl_plugin_add "plugins" "a.nasl" envMiss).utimeCalls
        = [(envMiss.nowTime - 1, envMiss.nowTime - 1, envMiss.utimeOk)]
    ∧ (envMiss.utimeOk = true → mtimeAfterLoad envMiss ≤ envMiss.nowTime)
    ∧ ∀ b : Bool,
        (nasl_plugin_add "plugins" "a.nasl"
            (LoadEnv.mk envMiss.cachedNvti envMiss.noSigCheck
              envMiss.execResult envMiss.parsedNvti envMiss.fileMtime
              envMiss.nowTime b envMiss.refetched)).ret
          = (nasl_plugin_add "plugins" "a.nasl" envMiss).ret
        ∧ (nasl_plugin_add "plugins" "a.nasl"
            (LoadEnv.mk envMiss.cachedNvti envMiss.noSigCheck
              envMiss.execResult envMiss.parsedNvti envMiss.fileMtime
              envMiss.nowTime b envMiss.refetched)).cacheAdds
          = (nasl_plugin_add "plugins" "a.nasl" envMiss).cacheAdds
        ∧ (nasl_plugin_add "plugins" "a.nasl"
            (LoadEnv.mk envMiss.cachedNvti envMiss.noSigCheck
              envMiss.execResult envMiss.parsedNvti envMiss.fileMtime
              envMiss.nowTime b envMiss.refetched)).prefWrites
          = (nasl_plugin_add "plugins" "a.nasl" envMiss).prefWrites :=
  future_mtime_is_corrected "plugins" "a.nasl" envMiss rfl (by decide) (by decide)

/-- Witness for claim C9 at a concrete environment whose cached canonical
copy differs from the freshly parsed descriptor. -/
theorem commit_then_refetch_used_w :
    (nasl_plugin_add "plugins" "a.nasl" envMiss).cacheAdds
        = [(envMiss.parsedNvti, "a.nasl")]
    ∧ (∀ m, envMiss.refetched = some m → m.oid.isSome = true →
        (nasl_plugin_add "plugins" "a.nasl" envMiss).prefWrites
          = prefs_add_nvti m)
    ∧ (envMiss.refetched = none →
        (nasl_plugin_add "plugins" "a.nasl" envMiss).ret = -1
        ∧ (nasl_plugin_add "plugins" "a.nasl" envMiss).prefWrites = []) :=
  commit_then_refetch_used "plugins" "a.nasl" envMiss rfl (by decide) rfl

/-- Witness for claim C3: a first cache-missing load followed by a cache-hit
load served with the first load's re-fetched descriptor. -/
theorem second_load_same_prefs_w :
    (nasl_plugin_add "plugins" "a.nasl" envHit).interpCalls = []
    ∧ (nasl_plugin_add "plugins" "a.nasl" envHit).ret = 0
    ∧ (nasl_plugin_add "plugins" "a.nasl" envHit).prefWrites
        = (nasl_plugin_add "plugins" "a.nasl" envMiss).prefWrites :=
  second_load_same_prefs "plugins" "a.nasl" envMiss envHit rfl rfl rfl

/-- Witness for claim C7 at a concrete drop-failure environment. -/
theorem drop_priv_failure_nonfatal_w :
    (envDropPriv.dropPrivResult = GVM_DROP_PRIVILEGES_FAIL_NOT_ROOT →
      (nasl_thread "host" "plug" 7 envDropPriv).countP isDropPrivFailLog = 0)
    ∧ (envDropPriv.dropPrivResult ≠ GVM_DROP_PRIVILEGES_OK →
        envDropPriv.dropPrivResult ≠ GVM_DROP_PRIVILEGES_FAIL_NOT_ROOT →
        (nasl_thread "host" "plug" 7 envDropPriv).countP isDropPrivFailLog = 1)
    ∧ (nasl_thread "host" "plug" 7 envDropPriv).countP isExec = 1
    ∧ (nasl_thread "host" "plug" 7 envDropPriv).filter isSend
        = [WorkerEvent.internalSend 7 none
            (INTERNAL_COMM_MSG_TYPE_CTRL ||| INTERNAL_COMM_CTRL_FINISHED)] :=
  drop_priv_failure_nonfatal "host" "plug" 7 envDropPriv rfl

/-- Witness for the amended claim C8 at a concrete failing-nice
environment. -/
theorem be_nice_renices_nonfatal_w :
    niceIncrementsOf (nasl_thread "host" "plug" 7 envBeNiceFail) = [-5]
    ∧ (envBeNiceFail.niceRetval = -1 → envBeNiceFail.niceErrno ≠ 0 →
        (nasl_thread "host" "plug" 7 envBeNiceFail).countP isReniceFailLog = 1)
    ∧ (nasl_thread "host" "plug" 7 envBeNiceFail).countP isExec = 1
    ∧ (nasl_thread "host" "plug" 7 envBeNiceFail).filter isSend
        = [WorkerEvent.internalSend 7 none
            (INTERNAL_COMM_MSG_TYPE_CTRL ||| INTERNAL_COMM_CTRL_FINISHED)] :=
  be_nice_renices_nonfatal "host" "plug" 7 envBeNiceFail rfl

end NaslPlugins
